import Mathlib

/-
  Verification development for the quarter-master-inventory backend.

  The definitions below are a shallow embedding of the TypeScript source:
  the drizzle schema (troops, users, items, transactions), the item route
  handlers (list, get, create, update, delete, checkout, checkin), the user
  and auth route handlers (create user, register), and the QRCodeService
  together with the POST /qr/scan handler.

  The relational store is modelled as explicit lists; a drizzle
  select().where(and(eq ..)).limit(1) becomes List.filter followed by
  List.head?, an insert becomes an append, and update().where(..) becomes a
  List.map guarded by the where-condition.
-/

namespace QM

/-! ## Data model (drizzle schema: troops, users, items, transactions) -/

/-- Item category enum from the schema: text("category", enum ["permanent", "staples"]). -/
inductive Category
  | permanent
  | staples
  deriving DecidableEq, Repr

/-- Location side enum: ["left", "right"]. -/
inductive Side
  | left
  | right
  deriving DecidableEq, Repr

/-- Location level enum: ["low", "middle", "high"]. -/
inductive Level
  | low
  | middle
  | high
  deriving DecidableEq, Repr

/-- Item status enum: ["available", "checked_out", "needs_repair"]. -/
inductive ItemStatus
  | available
  | checked_out
  | needs_repair
  deriving DecidableEq, Repr

/-- User role enum: ["admin", "leader", "scout", "viewer"]. -/
inductive Role
  | admin
  | leader
  | scout
  | viewer
  deriving DecidableEq, Repr

/-- Ledger action enum: ["check_out", "check_in"]. -/
inductive TxAction
  | check_out
  | check_in
  deriving DecidableEq, Repr

/-- A row of the troops table (the tenant). -/
structure Troop where
  id : String
  name : String
  slug : String
  deriving DecidableEq, Repr

/-- A row of the users table. The password hash plays no role in the
    verified routes and is omitted. -/
structure User where
  id : String
  troopId : String
  username : String
  email : String
  role : Role
  deriving DecidableEq, Repr

/-- A row of the items table. -/
structure Item where
  id : String
  troopId : String
  name : String
  description : Option String
  category : Category
  locationSide : Side
  locationLevel : Level
  status : ItemStatus
  qrCode : String
  deriving DecidableEq, Repr

/-- A row of the transactions table. userId is nullable
    (text("user_id").references(users.id), no notNull). -/
structure Txn where
  troopId : String
  itemId : String
  userId : Option String
  action : TxAction
  checkedOutBy : Option String
  notes : Option String
  deriving DecidableEq, Repr

/-- The relational store. Transaction rows are append-only in the routes,
    newest at the end of the list (insertion order). -/
structure DB where
  troops : List Troop
  users : List User
  items : List Item
  transactions : List Txn
  deriving DecidableEq, Repr

/-! ## Item store queries (routes/items.ts) -/

/-- db.select().from(items).where(and(eq(items.id, itemId),
    eq(items.troopId, troopId))).limit(1) -/
def findItem (db : DB) (itemId troopId : String) : Option Item :=
  (db.items.filter fun i => i.id == itemId && i.troopId == troopId).head?

/-- Errors raised by the item route handlers: HTTPException(404, "Item not
    found") and HTTPException(400, "Item is not available for checkout") /
    HTTPException(400, "Item is not checked out").  The 400 wrong-status
    failure is the InvalidTransition case of the error taxonomy. -/
inductive ItemError
  | notFound
  | invalidTransition
  deriving DecidableEq, Repr

/-- The HTTP status each ItemError is reported with, read off the
    HTTPException constructor calls in the checkout / checkin handlers. -/
def itemErrorHttpStatus : ItemError → Nat
  | .notFound => 404
  | .invalidTransition => 400

/-- GET /api/items/:id handler: tenant-scoped select, 404 if empty. -/
def getItem (db : DB) (troop : Troop) (itemId : String) : Except ItemError Item :=
  match findItem db itemId troop.id with
  | none => .error .notFound
  | some i => .ok i

/-- Query filters accepted by GET /api/items (itemFiltersSchema). -/
structure ItemFilters where
  category : Option Category
  status : Option ItemStatus
  location : Option String
  search : Option String
  deriving Repr

/-- Rendering of the Side enum as its stored string. -/
def Side.toStr : Side → String
  | .left => "left"
  | .right => "right"

/-- Rendering of the Level enum as its stored string. -/
def Level.toStr : Level → String
  | .low => "low"
  | .middle => "middle"
  | .high => "high"

/-- Does the character list start with the given needle. -/
def charsHavePrefix : List Char → List Char → Bool
  | [], _ => true
  | _ :: _, [] => false
  | c :: cs, d :: ds => c == d && charsHavePrefix cs ds

/-- Does the character list contain the needle as a contiguous run. -/
def charsHaveInfix (needle : List Char) : List Char → Bool
  | [] => charsHavePrefix needle []
  | c :: cs => charsHavePrefix needle (c :: cs) || charsHaveInfix needle cs

/-- SQL like(col, %q%) substring match used by the search filter. -/
def strContains (hay needle : String) : Bool :=
  charsHaveInfix needle.toList hay.toList

/-- The location filter: filters.location.split("-"); the condition is only
    added when both parts are truthy (non-empty). -/
def parseLocationFilter (s : String) : Option (String × String) :=
  match s.splitOn "-" with
  | side :: level :: _ => if side ≠ "" ∧ level ≠ "" then some (side, level) else none
  | _ => none

/-- The where-conditions of the GET /api/items list handler, combined with
    and(...): tenant scope plus the optional category / status / location /
    search filters. -/
def matchesFilters (troop : Troop) (f : ItemFilters) (i : Item) : Bool :=
  i.troopId == troop.id
    && (match f.category with
        | none => true
        | some c => i.category == c)
    && (match f.status with
        | none => true
        | some s => i.status == s)
    && (match f.location with
        | none => true
        | some loc =>
          match parseLocationFilter loc with
          | none => true
          | some (side, level) => i.locationSide.toStr == side && i.locationLevel.toStr == level)
    && (match f.search with
        | none => true
        | some q =>
          strContains i.name q
            || (match i.description with
                | some d => strContains d q
                | none => false))

/-- GET /api/items handler: select where and(conditions). -/
def listItems (db : DB) (troop : Troop) (f : ItemFilters) : List Item :=
  db.items.filter (matchesFilters troop f)

/-! ## Item store mutations (routes/items.ts) -/

/-- Request body accepted by POST /api/items (createItemSchema). -/
structure CreateInput where
  name : String
  description : Option String
  category : Category
  locationSide : Side
  locationLevel : Level
  deriving Repr

/-- POST /api/items handler: insert with status "available" and a freshly
    generated qrCode.  The generated id and qrCode are parameters here; the
    primary-key constraint on items.id and the unique constraint on
    items.qr_code are modelled as the error branch (the route surfaces a
    constraint violation as a 500). -/
def createItem (db : DB) (troop : Troop) (newId newQr : String) (d : CreateInput) :
    DB × Except Unit Item :=
  if db.items.any (fun i => i.id == newId || i.qrCode == newQr) then
    (db, .error ())
  else
    let it : Item :=
      { id := newId, troopId := troop.id, name := d.name, description := d.description,
        category := d.category, locationSide := d.locationSide,
        locationLevel := d.locationLevel, status := .available, qrCode := newQr }
    ({ db with items := db.items ++ [it] }, .ok it)

/-- Request body accepted by PUT /api/items/:id (updateItemSchema): every
    field optional, including status. -/
structure UpdatePatch where
  name : Option String
  description : Option String
  category : Option Category
  locationSide : Option Side
  locationLevel : Option Level
  status : Option ItemStatus
  deriving Repr

/-- The update().set({...updateData}) spread: a present field overwrites,
    an absent field leaves the column alone. -/
def applyPatch (p : UpdatePatch) (i : Item) : Item :=
  { i with
    name := p.name.getD i.name,
    description := match p.description with
      | some d => some d
      | none => i.description,
    category := p.category.getD i.category,
    locationSide := p.locationSide.getD i.locationSide,
    locationLevel := p.locationLevel.getD i.locationLevel,
    status := p.status.getD i.status }

/-- PUT /api/items/:id handler: tenant-scoped existence check (404 if
    empty), then update().set({...updateData}).where(eq(items.id, itemId));
    note the write itself is keyed by id only, exactly as in the source. -/
def updateItem (db : DB) (troop : Troop) (itemId : String) (p : UpdatePatch) :
    DB × Except ItemError Item :=
  match findItem db itemId troop.id with
  | none => (db, .error .notFound)
  | some it =>
    let newItems := db.items.map fun i => if i.id == itemId then applyPatch p i else i
    ({ db with items := newItems }, .ok (applyPatch p it))

/-- DELETE /api/items/:id handler: tenant-scoped existence check, then
    delete where eq(items.id, itemId); transactions cascade-delete with the
    item (FK onDelete cascade). -/
def deleteItem (db : DB) (troop : Troop) (itemId : String) :
    DB × Except ItemError Unit :=
  match findItem db itemId troop.id with
  | none => (db, .error .notFound)
  | some _ =>
    ({ db with
        items := db.items.filter fun i => !(i.id == itemId),
        transactions := db.transactions.filter fun t => !(t.itemId == itemId) },
      .ok ())

/-! ## Checkout / checkin state machine (routes/items.ts) -/

/-- Request body accepted by POST /api/items/:id/checkout (checkoutSchema).
    expectedReturnDate is carried as an uninterpreted optional value and plays no
    role in any verified property; it is omitted from the embedding. -/
structure CheckoutInput where
  userId : Option String
  checkedOutBy : String
  notes : Option String
  deriving Repr

/-- Request body accepted by POST /api/items/:id/checkin (checkinSchema). -/
structure CheckinInput where
  notes : Option String
  deriving Repr

/-- The JavaScript expression checkoutData.userId || user.id: the fallback
    also fires on an empty string, which is falsy. -/
def jsOrElse (a : Option String) (b : String) : String :=
  match a with
  | some s => if s == "" then b else s
  | none => b

/-- The db.transaction block of the checkout handler: set the item status
    to checked_out where eq(items.id, itemId) and insert the check_out
    ledger row.  This pair is the part of the handler that executes
    atomically. -/
def checkoutCommit (db : DB) (troop : Troop) (user : User) (itemId : String)
    (d : CheckoutInput) : DB :=
  { db with
    items := db.items.map fun i =>
      if i.id == itemId then { i with status := .checked_out } else i,
    transactions := db.transactions ++
      [{ troopId := troop.id, itemId := itemId,
         userId := some (jsOrElse d.userId user.id), action := .check_out,
         checkedOutBy := some d.checkedOutBy, notes := d.notes }] }

/-- The db.transaction block of the checkin handler: set the item status to
    available where eq(items.id, itemId) and insert the check_in ledger
    row. -/
def checkinCommit (db : DB) (troop : Troop) (user : User) (itemId : String)
    (d : CheckinInput) : DB :=
  { db with
    items := db.items.map fun i =>
      if i.id == itemId then { i with status := .available } else i,
    transactions := db.transactions ++
      [{ troopId := troop.id, itemId := itemId,
         userId := some user.id, action := .check_in,
         checkedOutBy := none, notes := d.notes }] }

/-- POST /api/items/:id/checkout handler, run to completion without
    interference: tenant-scoped load (404 if empty), wrong-status check
    (400 if status is not available, thrown before any write), then the
    atomic commit block, then a re-select by id to answer the caller.
    Errors are thrown before any mutation, so the error branches return the
    store unchanged, exactly as the source does. -/
def checkout (db : DB) (troop : Troop) (user : User) (itemId : String)
    (d : CheckoutInput) : DB × Except ItemError Item :=
  match findItem db itemId troop.id with
  | none => (db, .error .notFound)
  | some it =>
    if it.status ≠ .available then
      (db, .error .invalidTransition)
    else
      let db' := checkoutCommit db troop user itemId d
      (db',
        match (db'.items.filter fun i => i.id == itemId).head? with
        | some updated => .ok updated
        | none => .ok { it with status := .checked_out })

/-- POST /api/items/:id/checkin handler, run to completion without
    interference; symmetric to checkout with the wrong-status check being
    status is not checked_out. -/
def checkin (db : DB) (troop : Troop) (user : User) (itemId : String)
    (d : CheckinInput) : DB × Except ItemError Item :=
  match findItem db itemId troop.id with
  | none => (db, .error .notFound)
  | some it =>
    if it.status ≠ .checked_out then
      (db, .error .invalidTransition)
    else
      let db' := checkinCommit db troop user itemId d
      (db',
        match (db'.items.filter fun i => i.id == itemId).head? with
        | some updated => .ok updated
        | none => .ok { it with status := .available })

/-- The HTTP status of a finished checkout or checkin call as seen by the
    caller: 200 on success, otherwise the HTTPException status. -/
def responseCode (r : Except ItemError Item) : Nat :=
  match r with
  | .ok _ => 200
  | .error e => itemErrorHttpStatus e

/-! ## Interleaved execution of checkout calls

The checkout handler is two awaited storage interactions: first the select
plus the status check (outside any transaction), then the db.transaction
block that performs the status write and the ledger insert.  A concurrent
execution of several checkout calls can interleave at that boundary, so a
call is modelled as a two-phase process whose first step performs the
tenant-scoped load and the status check and whose second step runs the
commit block atomically. -/

instance {ε α : Type} [DecidableEq ε] [DecidableEq α] : DecidableEq (Except ε α) := fun x y =>
  match x, y with
  | .ok a, .ok b => decidable_of_iff (a = b) (by simp)
  | .error a, .error b => decidable_of_iff (a = b) (by simp)
  | .ok _, .error _ => isFalse fun h => Except.noConfusion h
  | .error _, .ok _ => isFalse fun h => Except.noConfusion h

/-- The phase a single in-flight checkout call is in. -/
inductive CoPhase
  | ready
  | validated
  | finished (r : Except ItemError Unit)
  deriving DecidableEq, Repr

/-- One in-flight POST /api/items/:id/checkout call. -/
structure CoCall where
  troop : Troop
  user : User
  itemId : String
  d : CheckoutInput
  phase : CoPhase

/-- One scheduler step of an in-flight checkout call against the shared
    store.  From ready: run the select and the status check (this is the
    code before db.transaction, so it mutates nothing).  From validated:
    run the db.transaction block atomically.  A finished call does
    nothing. -/
def coStep (db : DB) (c : CoCall) : DB × CoCall :=
  match c.phase with
  | .ready =>
    (db,
      match findItem db c.itemId c.troop.id with
      | none => { c with phase := .finished (.error .notFound) }
      | some it =>
        if it.status ≠ .available then
          { c with phase := .finished (.error .invalidTransition) }
        else
          { c with phase := .validated })
  | .validated =>
    (checkoutCommit db c.troop c.user c.itemId c.d, { c with phase := .finished (.ok ()) })
  | .finished _ => (db, c)

/-- Run two concurrent checkout calls under an explicit schedule: true
    steps the first call, false steps the second. -/
def runSched (db : DB) (c1 c2 : CoCall) : List Bool → DB × CoCall × CoCall
  | [] => (db, c1, c2)
  | b :: rest =>
    if b then
      let (db', c1') := coStep db c1
      runSched db' c1' c2 rest
    else
      let (db', c2') := coStep db c2
      runSched db' c1 c2' rest

/-! ## QR identity codec (services/QRCodeService.ts and routes/qr.ts) -/

/-- A JSON scalar value as it appears in a QR payload object.  Composite
    values (arrays, nested objects) never occur in payloads the service
    emits and are not modelled. -/
inductive JVal
  | str (s : String)
  | num (n : Int)
  | bool (b : Bool)
  | null
  deriving DecidableEq, Repr

/-- A JSON object: ordered association list of fields, as produced by
    JSON.stringify of an object literal. -/
abbrev JObj : Type := List (String × JVal)

/-- JavaScript falsiness of a JSON scalar: "" and 0 and false and null are
    falsy. -/
def jfalsy : JVal → Bool
  | .str s => s == ""
  | .num n => n == 0
  | .bool b => !b
  | .null => true

/-- The object literal serialized by QRCodeService.generateQRCodeImage and
    generateQRCodeSVG: type "quartermaster_item", the item id, the troop
    slug, and timestamp = Date.now() (epoch milliseconds). -/
def qrPayload (itemId troopSlug : String) (now : Int) : JObj :=
  [("type", .str "quartermaster_item"),
   ("itemId", .str itemId),
   ("troopSlug", .str troopSlug),
   ("timestamp", .num now)]

/-- Modelled from the spec (for comparison only): section 6 of the spec
    gives the wire format as type "item-ref" with fields itemId, tenantSlug
    and issuedAt.  The generated payload is compared against this shape. -/
def specQrPayload (itemId tenantSlug : String) (now : Int) : JObj :=
  [("type", .str "item-ref"),
   ("itemId", .str itemId),
   ("tenantSlug", .str tenantSlug),
   ("issuedAt", .num now)]

/-- The validated fields of a scanned payload.  The parser only checks
    truthiness of the three data fields, so they are carried as JSON
    scalars, as in the source where JSON.parse returns untyped data. -/
structure QRData where
  itemId : JVal
  troopSlug : JVal
  timestamp : JVal
  deriving DecidableEq, Repr

/-- QRCodeService.parseQRCode on an already JSON-parsed object: null unless
    data.type is exactly "quartermaster_item" and data.itemId,
    data.troopSlug, data.timestamp are all present and truthy. -/
def parseQRCode (o : JObj) : Option QRData :=
  if o.lookup "type" ≠ some (.str "quartermaster_item") then none
  else
    match o.lookup "itemId", o.lookup "troopSlug", o.lookup "timestamp" with
    | some ii, some ts, some tm =>
      if jfalsy ii || jfalsy ts || jfalsy tm then none
      else some { itemId := ii, troopSlug := ts, timestamp := tm }
    | _, _, _ => none

/-- Errors of the POST /api/qr/scan handler: 400 invalid format, 403 wrong
    troop, 404 item missing. -/
inductive ScanError
  | malformedPayload
  | tenantMismatch
  | itemNotFound
  deriving DecidableEq, Repr

/-- The HTTP status of each scan failure, read off the HTTPException
    constructor calls in the scan handler. -/
def scanErrorHttpStatus : ScanError → Nat
  | .malformedPayload => 400
  | .tenantMismatch => 403
  | .itemNotFound => 404

/-- QRCodeService.findItemByQRCode: select where and(eq(items.id,
    qrData.itemId), eq(items.troopId, troopId)).  A non-string itemId
    scalar matches no text id column. -/
def findItemByQRCode (db : DB) (q : QRData) (troopId : String) : Option Item :=
  match q.itemId with
  | .str s => findItem db s troopId
  | _ => none

/-- POST /api/qr/scan handler on an already JSON-parsed payload object:
    parse and validate the shape (400), compare parsedQR.troopSlug against
    the requesting troop slug (403), and only then look the item up (404 if
    absent). -/
def scanQR (db : DB) (troop : Troop) (o : JObj) : Except ScanError Item :=
  match parseQRCode o with
  | none => .error .malformedPayload
  | some q =>
    if q.troopSlug ≠ .str troop.slug then .error .tenantMismatch
    else
      match findItemByQRCode db q troop.id with
      | none => .error .itemNotFound
      | some it => .ok it

/-! ## User creation and registration (routes/users.ts and routes/auth.ts) -/

/-- Errors of the user-creating handlers: 409 duplicate email, 404 unknown
    troop slug. -/
inductive UserError
  | conflict
  | troopNotFound
  deriving DecidableEq, Repr

/-- The HTTP status of each user-creation failure. -/
def userErrorHttpStatus : UserError → Nat
  | .conflict => 409
  | .troopNotFound => 404

/-- POST /api/users handler (admin user management): the duplicate-email
    guard selects where eq(users.email, email) with no troop condition, so
    it matches users of every troop; on pass, insert the user into the
    resolved troop with the requested role. -/
def createUser (db : DB) (troop : Troop) (newId username email : String) (role : Role) :
    DB × Except UserError User :=
  if ((db.users.filter fun u => u.email == email).head?).isSome then
    (db, .error .conflict)
  else
    let u : User := { id := newId, troopId := troop.id, username := username,
                      email := email, role := role }
    ({ db with users := db.users ++ [u] }, .ok u)

/-- POST /api/auth/register handler: the same troop-unscoped
    duplicate-email guard (eq(users.email, email) only), then the troop is
    resolved by slug (404 if unknown) and the user is inserted with the
    default role scout. -/
def register (db : DB) (newId username email troopSlug : String) :
    DB × Except UserError User :=
  if ((db.users.filter fun u => u.email == email).head?).isSome then
    (db, .error .conflict)
  else
    match (db.troops.filter fun t => t.slug == troopSlug).head? with
    | none => (db, .error .troopNotFound)
    | some troop =>
      let u : User := { id := newId, troopId := troop.id, username := username,
                        email := email, role := .scout }
      ({ db with users := db.users ++ [u] }, .ok u)

/-! ## The status / ledger invariant -/

/-- The most recent ledger row for an item: transactions are appended in
    insertion order, so the last matching row is the newest. -/
def lastTxnFor (db : DB) (itemId : String) : Option Txn :=
  (db.transactions.filter fun t => t.itemId == itemId).getLast?

/-- The invariant of section 3 of the spec: an item has status checked_out
    exactly when its most recent ledger row is a check_out. -/
def statusLedgerInv (db : DB) : Prop :=
  ∀ i ∈ db.items,
    (i.status = ItemStatus.checked_out ↔ (lastTxnFor db i.id).map (·.action) = some .check_out)

instance (db : DB) : Decidable (statusLedgerInv db) := by
  unfold statusLedgerInv
  infer_instance

/-- Structural facts guaranteed by the relational schema: items.id is a
    primary key (no two rows share an id) and transactions.item_id is a
    foreign key into items (cascade delete keeps it live). -/
def wellFormed (db : DB) : Prop :=
  (db.items.map (·.id)).Nodup ∧
    ∀ t ∈ db.transactions, t.itemId ∈ db.items.map (·.id)

instance (db : DB) : Decidable (wellFormed db) := by
  unfold wellFormed
  infer_instance

/-- One mutating operation of the system, as dispatched by the routes. -/
inductive Op
  | checkoutOp (troop : Troop) (user : User) (itemId : String) (d : CheckoutInput)
  | checkinOp (troop : Troop) (user : User) (itemId : String) (d : CheckinInput)
  | createOp (troop : Troop) (newId newQr : String) (d : CreateInput)
  | updateOp (troop : Troop) (itemId : String) (p : UpdatePatch)

/-- The store produced by dispatching one operation. -/
def applyOp (db : DB) : Op → DB
  | .checkoutOp troop user itemId d => (checkout db troop user itemId d).1
  | .checkinOp troop user itemId d => (checkin db troop user itemId d).1
  | .createOp troop newId newQr d => (createItem db troop newId newQr d).1
  | .updateOp troop itemId p => (updateItem db troop itemId p).1

/-- Whether an operation carries no status overwrite: true for everything
    except an update whose patch has a status field. -/
def noStatusPatch : Op → Prop
  | .updateOp _ _ p => p.status = none
  | _ => True

instance (op : Op) : Decidable (noStatusPatch op) := by
  unfold noStatusPatch
  cases op <;> infer_instance

/-! ## Concrete fixtures for witnesses and counterexamples -/

/-- A first tenant. -/
def troopA : Troop := { id := "tA", name := "Troop A", slug := "troop-a" }

/-- A second tenant. -/
def troopB : Troop := { id := "tB", name := "Troop B", slug := "troop-b" }

/-- An admin of troop A. -/
def adminA : User :=
  { id := "uA", troopId := "tA", username := "alice", email := "alice@example.com",
    role := .admin }

/-- A scout of troop A. -/
def scoutA : User :=
  { id := "uS", troopId := "tA", username := "sam", email := "sam@example.com",
    role := .scout }

/-- An available item of troop A. -/
def tentAvail : Item :=
  { id := "i1", troopId := "tA", name := "Tent", description := none,
    category := .permanent, locationSide := .left, locationLevel := .low,
    status := .available, qrCode := "QR1" }

/-- The same item, checked out. -/
def tentOut : Item := { tentAvail with status := .checked_out }

/-- The same item, under repair. -/
def tentRepair : Item := { tentAvail with status := .needs_repair }

/-- An available item of troop B. -/
def stoveB : Item :=
  { id := "i2", troopId := "tB", name := "Stove", description := none,
    category := .staples, locationSide := .right, locationLevel := .high,
    status := .available, qrCode := "QR2" }

/-- A walk-up checkout request body with no userId supplied. -/
def coInput : CheckoutInput := { userId := none, checkedOutBy := "Alex", notes := none }

/-- A checkin request body. -/
def ciInput : CheckinInput := { notes := none }

/-- The ledger row of the checkout that produced tentOut. -/
def txOut1 : Txn :=
  { troopId := "tA", itemId := "i1", userId := some "uS", action := .check_out,
    checkedOutBy := some "Alex", notes := none }

/-- Store with the tent available. -/
def dbAvail : DB :=
  { troops := [troopA, troopB], users := [adminA, scoutA],
    items := [tentAvail, stoveB], transactions := [] }

/-- Store with the tent checked out and its check_out ledger row. -/
def dbOut : DB :=
  { troops := [troopA, troopB], users := [adminA, scoutA],
    items := [tentOut, stoveB], transactions := [txOut1] }

/-- Store with the tent under repair. -/
def dbRepair : DB :=
  { troops := [troopA, troopB], users := [adminA, scoutA],
    items := [tentRepair, stoveB], transactions := [] }

/-- An empty filter set for the list view. -/
def noFilters : ItemFilters :=
  { category := none, status := none, location := none, search := none }

/-- A patch that renames without touching status. -/
def renamePatch : UpdatePatch :=
  { name := some "Big Tent", description := none, category := none,
    locationSide := none, locationLevel := none, status := none }

/-- A patch that carries a status overwrite. -/
def repairPatch : UpdatePatch :=
  { name := none, description := none, category := none,
    locationSide := none, locationLevel := none, status := some .needs_repair }

/-! ## Claim theorems -/

/-- C4: a checkout against an item whose status is not available fails
    InvalidTransition with the whole store returned unchanged, so no ledger
    row is appended and the item keeps its fields; symmetrically a checkin
    against an item whose status is not checked_out. -/
theorem wrongStatus_rejected_unchanged (db : DB) (troop : Troop) (user : User)
    (itemId : String) (cod : CheckoutInput) (cid : CheckinInput) (it : Item)
    (hfind : findItem db itemId troop.id = some it) :
    (it.status ≠ .available →
      checkout db troop user itemId cod = (db, .error .invalidTransition)) ∧
    (it.status ≠ .checked_out →
      checkin db troop user itemId cid = (db, .error .invalidTransition)) := by
  refine ⟨fun hs => ?_, fun hs => ?_⟩
  · unfold checkout
    rw [hfind]
    simp [hs]
  · unfold checkin
    rw [hfind]
    simp [hs]

/-- C4 witness: the needs_repair tent rejects both transitions and the
    store is untouched. -/
theorem wrongStatus_rejected_unchanged_witness :
    findItem dbRepair "i1" troopA.id = some tentRepair ∧
    checkout dbRepair troopA scoutA "i1" coInput = (dbRepair, .error .invalidTransition) ∧
    checkin dbRepair troopA scoutA "i1" ciInput = (dbRepair, .error .invalidTransition) :=
  ⟨by decide,
    (wrongStatus_rejected_unchanged dbRepair troopA scoutA "i1" coInput ciInput tentRepair
      (by decide)).1 (by decide),
    (wrongStatus_rejected_unchanged dbRepair troopA scoutA "i1" coInput ciInput tentRepair
      (by decide)).2 (by decide)⟩

/-- C5 counterexample: a checkout against the checked_out tent fails
    InvalidTransition and the handler reports it with HTTP 400, not 409;
    the source throws HTTPException(400, ...) for the wrong-status case. -/
theorem invalidTransition_http_counterexample :
    (checkout dbOut troopA scoutA "i1" coInput).2 = .error .invalidTransition ∧
    responseCode (checkout dbOut troopA scoutA "i1" coInput).2 = 400 ∧
    ¬ responseCode (checkout dbOut troopA scoutA "i1" coInput).2 = 409 := by
  decide

/-- C5 amended: every InvalidTransition failure of checkout or checkin is
    reported to the caller with HTTP status 400. -/
theorem invalidTransition_reported_400 (db : DB) (troop : Troop) (user : User)
    (itemId : String) (cod : CheckoutInput) (cid : CheckinInput) :
    ((checkout db troop user itemId cod).2 = .error .invalidTransition →
      responseCode (checkout db troop user itemId cod).2 = 400) ∧
    ((checkin db troop user itemId cid).2 = .error .invalidTransition →
      responseCode (checkin db troop user itemId cid).2 = 400) := by
  refine ⟨fun h => ?_, fun h => ?_⟩ <;> rw [h] <;> rfl

/-- C5 amended witness: the wrong-status checkout and checkin on concrete
    stores are answered with HTTP 400. -/
theorem invalidTransition_reported_400_witness :
    (checkout dbOut troopA scoutA "i1" coInput).2 = .error .invalidTransition ∧
    responseCode (checkout dbOut troopA scoutA "i1" coInput).2 = 400 ∧
    (checkin dbAvail troopA scoutA "i1" ciInput).2 = .error .invalidTransition ∧
    responseCode (checkin dbAvail troopA scoutA "i1" ciInput).2 = 400 :=
  ⟨by decide,
    (invalidTransition_reported_400 dbOut troopA scoutA "i1" coInput ciInput).1 (by decide),
    by decide,
    (invalidTransition_reported_400 dbAvail troopA scoutA "i1" coInput ciInput).2 (by decide)⟩

/-- C6: scanning a decodable payload whose troopSlug differs from the
    requesting troop slug fails tenantMismatch for every store whatsoever,
    so the rejection is decided before and independently of any item
    lookup. -/
theorem scan_crossTenant_mismatch (db : DB) (troop : Troop) (o : JObj) (q : QRData)
    (hp : parseQRCode o = some q) (hs : q.troopSlug ≠ .str troop.slug) :
    scanQR db troop o = .error .tenantMismatch := by
  unfold scanQR
  rw [hp]
  simp [hs]

/-- C6 witness: a payload minted for troop-b naming an item id that exists
    in the requesting troop A is still rejected tenantMismatch. -/
theorem scan_crossTenant_mismatch_witness :
    parseQRCode (qrPayload "i1" "troop-b" 7) =
      some { itemId := .str "i1", troopSlug := .str "troop-b", timestamp := .num 7 } ∧
    findItem dbAvail "i1" troopA.id = some tentAvail ∧
    scanQR dbAvail troopA (qrPayload "i1" "troop-b" 7) = .error .tenantMismatch :=
  ⟨by decide, by decide,
    scan_crossTenant_mismatch dbAvail troopA (qrPayload "i1" "troop-b" 7)
      { itemId := .str "i1", troopSlug := .str "troop-b", timestamp := .num 7 }
      (by decide) (by decide)⟩

/-- C7: when every item carrying the requested id belongs to a troop other
    than the requesting one (which covers both an id existing only in
    another tenant and an id existing nowhere), GET answers exactly
    notFound (the 404 of the handler), and the list view only ever returns
    items of the requesting troop. -/
theorem crossTenant_id_notFound (db : DB) (troop : Troop) (itemId : String) (f : ItemFilters)
    (h : ∀ i ∈ db.items, i.id = itemId → i.troopId ≠ troop.id) :
    getItem db troop itemId = .error .notFound ∧
      ∀ i ∈ listItems db troop f, i.troopId = troop.id := by
  constructor
  · have hnil : db.items.filter (fun i => i.id == itemId && i.troopId == troop.id) = [] := by
      rw [List.filter_eq_nil_iff]
      intro a ha hpa
      simp only [Bool.and_eq_true, beq_iff_eq] at hpa
      exact h a ha hpa.1 hpa.2
    unfold getItem findItem
    rw [hnil]
    rfl
  · intro i hi
    have hc := (List.mem_filter.mp hi).2
    unfold matchesFilters at hc
    simp only [Bool.and_eq_true] at hc
    exact beq_iff_eq.mp hc.1.1.1.1

/-- C7 witness: the stove id exists only under troop B; requesting it from
    troop A gives exactly notFound and troop A listing stays in troop A. -/
theorem crossTenant_id_notFound_witness :
    (∀ i ∈ dbAvail.items, i.id = "i2" → i.troopId ≠ troopA.id) ∧
    getItem dbAvail troopA "i2" = .error .notFound ∧
    ∀ i ∈ listItems dbAvail troopA noFilters, i.troopId = troopA.id :=
  ⟨by decide,
    (crossTenant_id_notFound dbAvail troopA "i2" noFilters (by decide)).1,
    (crossTenant_id_notFound dbAvail troopA "i2" noFilters (by decide)).2⟩

/-- C8: the failing input of the per-tenant email uniqueness claim: the
    email alice@example.com exists only under troop A, yet registering it
    under troop B and creating a troop B user with it are both rejected
    with the 409 conflict, because the duplicate-email guard of both
    handlers queries by email alone with no troop condition. -/
theorem crossTenant_email_rejected :
    (∀ u ∈ dbAvail.users, u.email = "alice@example.com" → u.troopId ≠ troopB.id) ∧
    (register dbAvail "u9" "alice2" "alice@example.com" "troop-b").2 = .error .conflict ∧
    (createUser dbAvail troopB "u9" "alice2" "alice@example.com" Role.scout).2 =
      .error .conflict ∧
    userErrorHttpStatus .conflict = 409 := by
  decide

/-- C1: the schedule in which both concurrent checkout calls on the
    available tent run their status check before either runs its commit
    block: both calls finish ok and two check_out ledger rows are appended,
    because the status check executes outside the db.transaction block.
    The claim (exactly one succeeds, one ledger row) is therefore false of
    the code. -/
theorem checkout_race_both_succeed :
    (runSched dbAvail
        { troop := troopA, user := adminA, itemId := "i1", d := coInput, phase := .ready }
        { troop := troopA, user := scoutA, itemId := "i1", d := coInput, phase := .ready }
        [true, false, true, false]).2.1.phase = .finished (.ok ()) ∧
    (runSched dbAvail
        { troop := troopA, user := adminA, itemId := "i1", d := coInput, phase := .ready }
        { troop := troopA, user := scoutA, itemId := "i1", d := coInput, phase := .ready }
        [true, false, true, false]).2.2.phase = .finished (.ok ()) ∧
    ((runSched dbAvail
        { troop := troopA, user := adminA, itemId := "i1", d := coInput, phase := .ready }
        { troop := troopA, user := scoutA, itemId := "i1", d := coInput, phase := .ready }
        [true, false, true, false]).1.transactions.filter
          fun t => t.action == .check_out).length = 2 := by
  decide

/-- C3 counterexample: updateItemSchema accepts a status field and the PUT
    handler applies it: patching the available tent with status
    needs_repair changes its status outside the state machine. -/
theorem update_status_patch_changes_status :
    ((updateItem dbAvail troopA "i1" repairPatch).1.items.map (·.status)) =
      [ItemStatus.needs_repair, ItemStatus.available] ∧
    dbAvail.items.map (·.status) = [ItemStatus.available, ItemStatus.available] := by
  decide

/-- C3 amended: an item update whose accepted patch carries no status field
    leaves the id and status of every item unchanged. -/
theorem update_without_status_preserves_status (db : DB) (troop : Troop) (itemId : String)
    (p : UpdatePatch) (h : p.status = none) :
    (updateItem db troop itemId p).1.items.map (fun i => (i.id, i.status)) =
      db.items.map (fun i => (i.id, i.status)) := by
  unfold updateItem
  cases hf : findItem db itemId troop.id
  · rfl
  · simp only [List.map_map]
    apply List.map_congr_left
    intro a _
    by_cases hid : (a.id == itemId) = true
    · simp [Function.comp, hid, applyPatch, h]
    · simp [Function.comp, hid]

/-- C3 amended witness: the rename patch keeps both item statuses. -/
theorem update_without_status_preserves_status_witness :
    renamePatch.status = none ∧
    (updateItem dbAvail troopA "i1" renamePatch).1.items.map (fun i => (i.id, i.status)) =
      dbAvail.items.map (fun i => (i.id, i.status)) :=
  ⟨rfl, update_without_status_preserves_status dbAvail troopA "i1" renamePatch rfl⟩

/-- C9 counterexample: the payload object serialized by the QR service has
    kind discriminator "quartermaster_item", not "item-ref", and has no
    issuedAt or tenantSlug field at all; it differs from the wire object
    the claim describes. -/
theorem qrPayload_format_counterexample :
    (qrPayload "item-1" "troop-a" 7).lookup "type" = some (.str "quartermaster_item") ∧
    ¬ (qrPayload "item-1" "troop-a" 7).lookup "type" = some (.str "item-ref") ∧
    (qrPayload "item-1" "troop-a" 7).lookup "issuedAt" = none ∧
    (qrPayload "item-1" "troop-a" 7).lookup "tenantSlug" = none ∧
    ¬ qrPayload "item-1" "troop-a" 7 = specQrPayload "item-1" "troop-a" 7 := by
  decide

/-- C9 amended: for every itemId, troopSlug and timestamp the encoded
    payload is the object with kind discriminator "quartermaster_item" and
    fields itemId, troopSlug and timestamp, and (for the truthy values the
    parser accepts) it decodes back to exactly those three values. -/
theorem qrPayload_format_roundTrip (itemId troopSlug : String) (now : Int)
    (h1 : itemId ≠ "") (h2 : troopSlug ≠ "") (h3 : now ≠ 0) :
    (qrPayload itemId troopSlug now).lookup "type" = some (.str "quartermaster_item") ∧
    (qrPayload itemId troopSlug now).lookup "itemId" = some (.str itemId) ∧
    (qrPayload itemId troopSlug now).lookup "troopSlug" = some (.str troopSlug) ∧
    (qrPayload itemId troopSlug now).lookup "timestamp" = some (.num now) ∧
    parseQRCode (qrPayload itemId troopSlug now) =
      some { itemId := .str itemId, troopSlug := .str troopSlug, timestamp := .num now } := by
  have e1 : (itemId == "") = false := beq_eq_false_iff_ne.mpr h1
  have e2 : (troopSlug == "") = false := beq_eq_false_iff_ne.mpr h2
  have e3 : (now == 0) = false := beq_eq_false_iff_ne.mpr h3
  refine ⟨?_, ?_, ?_, ?_, ?_⟩ <;>
    simp [qrPayload, parseQRCode, List.lookup, jfalsy, e1, e2, e3]

/-- C9 amended witness: a concrete payload decodes back to its fields. -/
theorem qrPayload_format_roundTrip_witness :
    ¬ "item-1" = "" ∧ ¬ "troop-a" = "" ∧ ¬ (7 : Int) = 0 ∧
    parseQRCode (qrPayload "item-1" "troop-a" 7) =
      some { itemId := .str "item-1", troopSlug := .str "troop-a", timestamp := .num 7 } :=
  ⟨by decide, by decide, by decide,
    (qrPayload_format_roundTrip "item-1" "troop-a" 7 (by decide) (by decide) (by decide)).2.2.2.2⟩

/-! ## Preservation of the status / ledger invariant -/

/-- applyPatch never writes the id column. -/
theorem applyPatch_id (p : UpdatePatch) (i : Item) : (applyPatch p i).id = i.id := rfl

/-- With no status field in the patch, applyPatch keeps the status. -/
theorem applyPatch_status_of_none (p : UpdatePatch) (i : Item) (h : p.status = none) :
    (applyPatch p i).status = i.status := by
  simp [applyPatch, h]

/-- Appending a ledger row for this very item makes it the most recent
    matching row. -/
theorem txnsLast_concat_self (ts : List Txn) (t : Txn) (i : String) (h : t.itemId = i) :
    ((ts ++ [t]).filter fun x => x.itemId == i).getLast? = some t := by
  rw [List.filter_append]
  have hone : ([t].filter fun x => x.itemId == i) = [t] := by
    simp [List.filter, h]
  rw [hone, List.getLast?_concat]

/-- Appending a ledger row for a different item leaves the most recent
    matching row untouched. -/
theorem txnsLast_concat_ne (ts : List Txn) (t : Txn) (i : String) (h : ¬ t.itemId = i) :
    ((ts ++ [t]).filter fun x => x.itemId == i).getLast? =
      (ts.filter fun x => x.itemId == i).getLast? := by
  rw [List.filter_append]
  have hfalse : (t.itemId == i) = false := beq_eq_false_iff_ne.mpr h
  have hnone : ([t].filter fun x => x.itemId == i) = [] := by
    simp [List.filter, hfalse]
  rw [hnone, List.append_nil]

/-- The common shape of the two commit blocks: one item status written
    where eq(items.id, itemId) together with one appended ledger row for
    that item.  When the written status agrees with the appended action
    about being a checkout, the invariant survives. -/
theorem statusLedgerInv_commit (db : DB) (itemId : String) (newStatus : ItemStatus) (t : Txn)
    (ht : t.itemId = itemId)
    (hiff : newStatus = ItemStatus.checked_out ↔ t.action = TxAction.check_out)
    (hinv : statusLedgerInv db) :
    statusLedgerInv
      { db with
        items := db.items.map fun i =>
          if i.id == itemId then { i with status := newStatus } else i,
        transactions := db.transactions ++ [t] } := by
  intro i' hi'
  obtain ⟨i, hi, rfl⟩ := List.mem_map.mp hi'
  by_cases hid : (i.id == itemId) = true
  · have hideq : i.id = itemId := beq_iff_eq.mp hid
    rw [if_pos hid]
    show newStatus = ItemStatus.checked_out ↔ _
    unfold lastTxnFor
    show _ ↔ (((db.transactions ++ [t]).filter fun x => x.itemId == i.id).getLast?).map
      (·.action) = some TxAction.check_out
    rw [txnsLast_concat_self db.transactions t i.id (by rw [ht, hideq])]
    simpa using hiff
  · have hidne : i.id ≠ itemId := by
      intro hc
      exact hid (beq_iff_eq.mpr hc)
    rw [if_neg hid]
    show i.status = ItemStatus.checked_out ↔ _
    unfold lastTxnFor
    show _ ↔ (((db.transactions ++ [t]).filter fun x => x.itemId == i.id).getLast?).map
      (·.action) = some TxAction.check_out
    rw [txnsLast_concat_ne db.transactions t i.id (by rw [ht]; exact fun hc => hidne hc.symm)]
    exact hinv i hi

/-- C2 amended: the status / ledger invariant (an item is checked_out
    exactly when its most recent ledger row is a check_out) is preserved
    by checkout, by checkin, by item create, and by every item update
    whose patch carries no status field, on every well-formed store. -/
theorem statusLedgerInv_preserved (db : DB) (op : Op)
    (hwf : wellFormed db) (hinv : statusLedgerInv db) (hns : noStatusPatch op) :
    statusLedgerInv (applyOp db op) := by
  cases op with
  | checkoutOp troop user itemId d =>
    show statusLedgerInv (checkout db troop user itemId d).1
    unfold checkout
    split
    · exact hinv
    · split
      · exact hinv
      · exact statusLedgerInv_commit db itemId .checked_out _ rfl (by simp) hinv
  | checkinOp troop user itemId d =>
    show statusLedgerInv (checkin db troop user itemId d).1
    unfold checkin
    split
    · exact hinv
    · split
      · exact hinv
      · refine statusLedgerInv_commit db itemId .available _ rfl ?_ hinv
        show ItemStatus.available = ItemStatus.checked_out ↔
          TxAction.check_in = TxAction.check_out
        simp
  | createOp troop newId newQr d =>
    show statusLedgerInv (createItem db troop newId newQr d).1
    unfold createItem
    split
    · exact hinv
    · rename_i hguard
      intro i' hi'
      have hi2 : i' ∈ db.items ++
          [({ id := newId, troopId := troop.id, name := d.name,
              description := d.description, category := d.category,
              locationSide := d.locationSide, locationLevel := d.locationLevel,
              status := .available, qrCode := newQr } : Item)] := hi'
      rcases List.mem_append.mp hi2 with hold | hnew
      · exact hinv i' hold
      · have hfresh : ∀ x ∈ db.items, x.id ≠ newId := by
          intro x hx hceq
          apply hguard
          rw [List.any_eq_true]
          exact ⟨x, hx, by rw [hceq]; simp⟩
        have hnil : (db.transactions.filter fun t => t.itemId == newId) = [] := by
          rw [List.filter_eq_nil_iff]
          intro t htm hbeq
          have hbeq2 : t.itemId = newId := beq_iff_eq.mp hbeq
          obtain ⟨x, hx, hxid⟩ := List.mem_map.mp (hwf.2 t htm)
          exact hfresh x hx (by rw [hxid, hbeq2])
        rw [List.mem_singleton] at hnew
        subst hnew
        show ItemStatus.available = ItemStatus.checked_out ↔
          ((lastTxnFor _ newId).map (·.action)) = some TxAction.check_out
        unfold lastTxnFor
        show _ ↔ ((db.transactions.filter fun x => x.itemId == newId).getLast?).map
          (·.action) = some TxAction.check_out
        rw [hnil]
        simp
  | updateOp troop itemId p =>
    show statusLedgerInv (updateItem db troop itemId p).1
    unfold updateItem
    split
    · exact hinv
    · intro i' hi'
      obtain ⟨i, hi, rfl⟩ := List.mem_map.mp hi'
      have hns' : p.status = none := hns
      by_cases hid : (i.id == itemId) = true
      · rw [if_pos hid]
        show (applyPatch p i).status = ItemStatus.checked_out ↔
          ((lastTxnFor _ (applyPatch p i).id).map (·.action)) = some TxAction.check_out
        rw [applyPatch_status_of_none p i hns', applyPatch_id]
        exact hinv i hi
      · rw [if_neg hid]
        exact hinv i hi

/-- C2 witness: the invariant holds of the checked-out store and survives
    a checkin of the tent. -/
theorem statusLedgerInv_preserved_witness :
    wellFormed dbOut ∧ statusLedgerInv dbOut ∧
    noStatusPatch (.checkinOp troopA scoutA "i1" ciInput) ∧
    statusLedgerInv (applyOp dbOut (.checkinOp troopA scoutA "i1" ciInput)) :=
  ⟨by decide, by decide, trivial,
    statusLedgerInv_preserved dbOut (.checkinOp troopA scoutA "i1" ciInput)
      (by decide) (by decide) trivial⟩

/-- C2 counterexample: the invariant holds of the checked-out store, yet
    the item-update operation with a status patch breaks it: the tent flips
    to available while its most recent ledger row stays a check_out, so the
    claim that every operation preserves the invariant is false. -/
theorem statusLedgerInv_update_counterexample :
    statusLedgerInv dbOut ∧ wellFormed dbOut ∧
    ¬ statusLedgerInv (applyOp dbOut (.updateOp troopA "i1"
      { name := none, description := none, category := none,
        locationSide := none, locationLevel := none,
        status := some .available })) := by
  decide

/-- A checkout call either fails with the store unchanged or its resulting
    store is exactly the commit block applied to the input store. -/
theorem checkout_cases (db : DB) (troop : Troop) (user : User) (itemId : String)
    (d : CheckoutInput) :
    (∃ e, checkout db troop user itemId d = (db, .error e)) ∨
    (checkout db troop user itemId d).1 = checkoutCommit db troop user itemId d := by
  unfold checkout
  split
  · exact .inl ⟨_, rfl⟩
  · split
    · exact .inl ⟨_, rfl⟩
    · exact .inr rfl

/-- A checkin call either fails with the store unchanged or its resulting
    store is exactly the commit block applied to the input store. -/
theorem checkin_cases (db : DB) (troop : Troop) (user : User) (itemId : String)
    (d : CheckinInput) :
    (∃ e, checkin db troop user itemId d = (db, .error e)) ∨
    (checkin db troop user itemId d).1 = checkinCommit db troop user itemId d := by
  unfold checkin
  split
  · exact .inl ⟨_, rfl⟩
  · split
    · exact .inl ⟨_, rfl⟩
    · exact .inr rfl

/-- C10: every ledger row appended by a successful checkout carries userId
    equal to the supplied userId, or the authenticated caller id when none
    was supplied (the JavaScript or-else of the handler), and every row
    appended by a successful checkin carries the authenticated caller id;
    neither row is ever recorded with a null principal. -/
theorem ledger_rows_attributed (db₁ : DB) (troop₁ : Troop) (user₁ : User) (id₁ : String)
    (d₁ : CheckoutInput) (db₂ : DB) (troop₂ : Troop) (user₂ : User) (id₂ : String)
    (d₂ : CheckinInput)
    (h₁ : ((checkout db₁ troop₁ user₁ id₁ d₁).2).isOk = true)
    (h₂ : ((checkin db₂ troop₂ user₂ id₂ d₂).2).isOk = true) :
    (∃ t : Txn,
      (checkout db₁ troop₁ user₁ id₁ d₁).1.transactions = db₁.transactions ++ [t] ∧
      t.action = .check_out ∧ t.userId = some (jsOrElse d₁.userId user₁.id) ∧
      ¬ t.userId = none ∧ (d₁.userId = none → t.userId = some user₁.id)) ∧
    (∃ t : Txn,
      (checkin db₂ troop₂ user₂ id₂ d₂).1.transactions = db₂.transactions ++ [t] ∧
      t.action = .check_in ∧ t.userId = some user₂.id ∧ ¬ t.userId = none) := by
  constructor
  · rcases checkout_cases db₁ troop₁ user₁ id₁ d₁ with ⟨e, he⟩ | hdb
    · rw [he] at h₁
      simp [Except.isOk, Except.toBool] at h₁
    · rw [hdb]
      exact ⟨_, rfl, rfl, rfl, by simp, fun hnone => by simp [jsOrElse, hnone]⟩
  · rcases checkin_cases db₂ troop₂ user₂ id₂ d₂ with ⟨e, he⟩ | hdb
    · rw [he] at h₂
      simp [Except.isOk, Except.toBool] at h₂
    · rw [hdb]
      exact ⟨_, rfl, rfl, rfl, by simp⟩

/-- C10 witness: a walk-up checkout of the available tent by the scout is
    attributed to the scout, and a checkin of the checked-out tent by the
    admin is attributed to the admin. -/
theorem ledger_rows_attributed_witness :
    ((checkout dbAvail troopA scoutA "i1" coInput).2).isOk = true ∧
    ((checkin dbOut troopA adminA "i1" ciInput).2).isOk = true ∧
    (∃ t : Txn,
      (checkout dbAvail troopA scoutA "i1" coInput).1.transactions =
        dbAvail.transactions ++ [t] ∧
      t.action = .check_out ∧ t.userId = some (jsOrElse coInput.userId scoutA.id) ∧
      ¬ t.userId = none ∧ (coInput.userId = none → t.userId = some scoutA.id)) ∧
    (∃ t : Txn,
      (checkin dbOut troopA adminA "i1" ciInput).1.transactions =
        dbOut.transactions ++ [t] ∧
      t.action = .check_in ∧ t.userId = some adminA.id ∧ ¬ t.userId = none) :=
  ⟨by decide, by decide,
    ledger_rows_attributed dbAvail troopA scoutA "i1" coInput dbOut troopA adminA "i1" ciInput
      (by decide) (by decide)⟩

end QM
